import Mathlib

/-!
Verification of the IoT oil-tank device core: the `HexagonalPrismTank`
volume model (`volume_calculator.py`) and the `WifiManager` connection
state machine (`wifi_manager.py`), shallowly embedded over `ℚ`, `ℤ` and
`Bool`.
-/

/-! ## Tank geometry model (`volume_calculator.py`) -/

/-- The five construction parameters stored by `HexagonalPrismTank.__init__`
(all in cm). -/
structure HexagonalPrismTank where
  tank_length : ℚ
  h_rectangle : ℚ
  h_trapeze : ℚ
  min_width : ℚ
  max_width : ℚ
deriving DecidableEq, Repr

/-- `HexagonalPrismTank.__init__`: plain field assignment, no validation of
any kind is performed in the source. -/
def mkTank (tank_length h_rectangle h_trapeze min_width max_width : ℚ) :
    HexagonalPrismTank :=
  ⟨tank_length, h_rectangle, h_trapeze, min_width, max_width⟩

/-- `self.level_1 = h_trapeze` (top of the lower trapezoidal segment). -/
def level_1 (t : HexagonalPrismTank) : ℚ := t.h_trapeze

/-- `self.level_2 = h_trapeze + h_rectangle` (top of the rectangle). -/
def level_2 (t : HexagonalPrismTank) : ℚ := t.h_trapeze + t.h_rectangle

/-- `self.tank_height = self.level_2 + self.h_trapeze`. -/
def tank_height (t : HexagonalPrismTank) : ℚ := level_2 t + t.h_trapeze

/-- `HexagonalPrismTank._calc_trapeze_volume`:
`area = (side_a + side_b) / 2 * height; return (area * tank_length) / 1000`. -/
def calc_trapeze_volume (t : HexagonalPrismTank) (side_a side_b height : ℚ) : ℚ :=
  ((side_a + side_b) / 2 * height * t.tank_length) / 1000

/-- `HexagonalPrismTank._calc_rectangle_volume`:
`return (side * height * tank_length) / 1000`. -/
def calc_rectangle_volume (t : HexagonalPrismTank) (side height : ℚ) : ℚ :=
  (side * height * t.tank_length) / 1000

/-- `self.trapeze_capacity`, precomputed in `__init__`. -/
def trapeze_capacity (t : HexagonalPrismTank) : ℚ :=
  calc_trapeze_volume t t.min_width t.max_width t.h_trapeze

/-- `self.rectangle_capacity`, precomputed in `__init__`. -/
def rectangle_capacity (t : HexagonalPrismTank) : ℚ :=
  calc_rectangle_volume t t.max_width t.h_rectangle

/-- The `volume` accumulator of `to_liters` just before the final negative
clamp, as a function of `current_level = tank_height - distance`: the
if/elif/elif chain of lines 106-122 (the accumulator is initialised to `0`
and left untouched when no branch matches). -/
def volAtLevel (t : HexagonalPrismTank) (current_level : ℚ) : ℚ :=
  if current_level ≤ level_1 t then
    (1/2 * (t.min_width +
        (t.min_width + (t.max_width - t.min_width) / t.h_trapeze * current_level)) *
      current_level * t.tank_length) / 1000
  else if current_level ≤ level_2 t then
    trapeze_capacity t + calc_rectangle_volume t t.max_width (current_level - level_1 t)
  else if current_level ≤ tank_height t then
    (1/2 * (t.max_width +
        (t.max_width + (t.min_width - t.max_width) / t.h_trapeze *
          (current_level - level_2 t))) *
      (current_level - level_2 t) * t.tank_length) / 1000
      + trapeze_capacity t + rectangle_capacity t
  else 0

/-- `HexagonalPrismTank.to_liters`: `current_level = tank_height - distance`,
the branch computation, then `if volume < 0: volume = 0`. -/
def to_liters (t : HexagonalPrismTank) (distance : ℚ) : ℚ :=
  let volume := volAtLevel t (tank_height t - distance)
  if volume < 0 then 0 else volume

/-- `to_liters` with the Python error path made explicit: in the source the
first branch executes `(max_width - min_width) / h_trapeze` (line 108) and
the third branch `(min_width - max_width) / h_trapeze` (line 120), so a call
whose `current_level` selects one of those branches raises
`ZeroDivisionError` when `h_trapeze = 0` — modelled as `none`; on every
other path the call returns (`some`) the value of the total embedding
`to_liters`, with which Python agrees whenever the division is defined. -/
def to_litersE (t : HexagonalPrismTank) (distance : ℚ) : Option ℚ :=
  let current_level := tank_height t - distance
  if current_level ≤ level_1 t then
    if t.h_trapeze = 0 then none else some (to_liters t distance)
  else if current_level ≤ level_2 t then
    some (to_liters t distance)
  else if current_level ≤ tank_height t then
    if t.h_trapeze = 0 then none else some (to_liters t distance)
  else
    some (to_liters t distance)

/-- Concrete geometry used for witnesses: lengths in cm,
`level_1 = 10`, `level_2 = 20`, `tank_height = 30`. -/
def T0 : HexagonalPrismTank := mkTank 1000 10 10 10 20

/-! ## WiFi connection state machine (`wifi_manager.py`)

The FSM state, the mutable fields of `WifiManager`, and the per-tick
environment (clock reading and network driver answers) are embedded as plain
data; `_fsm_logic` becomes a total step function. `utime.ticks_diff(a, b)`
is modelled as `a - b` on `ℤ`. LED output and logging are side effects with
no bearing on the claims and are omitted. -/

inductive WifiState where
  | disconnected
  | connecting
  | connected
  | error
deriving DecidableEq, Repr

/-- The fields of `WifiManager`: control flags and status indicators,
configuration (immutable after construction), FSM bookkeeping, plus
`timer_active` modelling whether the periodic `Timer` is initialised
(`start` calls `init`, `stop` calls `deinit`). -/
structure WifiManager where
  enable_connection : Bool
  is_connected : Bool
  has_connectivity : Bool
  connection_failed : Bool
  max_retries : ℤ
  retry_delay : ℤ
  connect_timeout : ℤ
  max_error_count : ℤ
  attempt_count : ℤ
  last_action_ms : ℤ
  error_count : ℤ
  tick_count : ℤ
  state : WifiState
  timer_active : Bool
deriving DecidableEq, Repr

/-- `WifiManager.__init__` (defaults: `max_retries=5`, `retry_delay=2`,
`connect_timeout=20`, `max_error_count=3`). -/
def mkWifiManager (max_retries retry_delay connect_timeout max_error_count : ℤ) :
    WifiManager where
  enable_connection := false
  is_connected := false
  has_connectivity := false
  connection_failed := false
  max_retries := max_retries
  retry_delay := retry_delay
  connect_timeout := connect_timeout
  max_error_count := max_error_count
  attempt_count := 0
  last_action_ms := 0
  error_count := 0
  tick_count := 0
  state := WifiState.disconnected
  timer_active := false

/-- Per-tick environment: the clock (`utime.ticks_ms()`), whether
`wlan.isconnected()` reports an association, whether `wlan.ifconfig()[0]`
is a non-zero IP, and whether `wlan.connect(...)` raises a (driver-busy)
exception this tick. -/
structure WifiEnv where
  now : ℤ
  wlan_isconnected : Bool
  has_ip : Bool
  connect_raises : Bool
deriving DecidableEq, Repr

/-- `WifiManager._fsm_logic`, lines 105-201. The whole body is wrapped in
`try/except` in the source so the handler is total; the only fallible call
it makes, `wlan.connect`, is modelled by `e.connect_raises` (the inner
`try/except` of lines 140-147 swallows it, leaving the state unchanged). -/
def WifiManager.fsm_logic (e : WifiEnv) (s0 : WifiManager) : WifiManager :=
  let s := { s0 with tick_count := s0.tick_count + 1 }
  if s.state = WifiState.disconnected then
    if s.enable_connection then
      { s with attempt_count := 0, connection_failed := false,
               state := WifiState.connecting, last_action_ms := 0 }
    else s
  else if s.state = WifiState.connecting then
    let s1 :=
      if ¬ e.wlan_isconnected ∧ e.now - s.last_action_ms > s.retry_delay * 1000 then
        if s.attempt_count < s.max_retries then
          if e.connect_raises then s
          else { s with attempt_count := s.attempt_count + 1, last_action_ms := e.now }
        else if ¬ s.enable_connection then
          { s with error_count := 0, state := WifiState.disconnected,
                   last_action_ms := e.now }
        else
          { s with error_count := s.error_count + 1, state := WifiState.error,
                   last_action_ms := e.now }
      else s
    if e.wlan_isconnected ∧ e.has_ip then
      { s1 with is_connected := true, error_count := 0, state := WifiState.connected }
    else s1
  else if s.state = WifiState.connected then
    if ¬ e.wlan_isconnected then
      { s with is_connected := false, state := WifiState.disconnected }
    else if ¬ s.enable_connection then
      { s with error_count := 0, state := WifiState.disconnected }
    else s
  else if s.state = WifiState.error then
    let s1 :=
      if s.error_count ≥ s.max_error_count then
        { s with error_count := 0, enable_connection := false,
                 connection_failed := true }
      else s
    if e.now - s1.last_action_ms > 10000 then
      { s1 with state := WifiState.disconnected }
    else if ¬ s1.enable_connection then
      { s1 with error_count := 0, state := WifiState.disconnected }
    else s1
  else s

/-- `WifiManager.start`: initialises the periodic timer; from then on
each timer period dispatches `_fsm_logic` (via `micropython.schedule`). -/
def WifiManager.start (s : WifiManager) : WifiManager :=
  { s with timer_active := true }

/-- `WifiManager.stop`: deinitialises the timer, disconnects the WLAN,
turns the LED off and sets the state to `disconnected`. No other field of
the manager is touched. -/
def WifiManager.stop (s : WifiManager) : WifiManager :=
  { s with timer_active := false, state := WifiState.disconnected }

/-- The caller writing the public `enable_connection` flag. -/
def WifiManager.set_enable (b : Bool) (s : WifiManager) : WifiManager :=
  { s with enable_connection := b }

/-- One period of the hardware timer: `_fsm_logic` runs only while the timer
is initialised (after `start`, before `stop`). -/
def WifiManager.timer_tick (e : WifiEnv) (s : WifiManager) : WifiManager :=
  if s.timer_active then WifiManager.fsm_logic e s else s

/-- A sequence of FSM ticks. -/
def applyTicks (es : List WifiEnv) (s : WifiManager) : WifiManager :=
  es.foldl (fun t e => WifiManager.fsm_logic e t) s

/-- `WifiManager.check_internet`: returns `False` at once when
`is_connected` is false; otherwise attempts the socket probe, whose outcome
(success, or any exception caught by the bare `except`) is modelled by
`probe_ok`, and records it in `has_connectivity`. -/
def WifiManager.check_internet (probe_ok : Bool) (s : WifiManager) :
    WifiManager × Bool :=
  if ¬ s.is_connected then (s, false)
  else if probe_ok then ({ s with has_connectivity := true }, true)
  else ({ s with has_connectivity := false }, false)

/-- Manager states reachable from construction under FSM ticks, the caller
writing `enable_connection`, and the public `start`/`stop` operations. -/
inductive Reachable : WifiManager → Prop where
  | init : ∀ mr rd ct mec, Reachable (mkWifiManager mr rd ct mec)
  | tick : ∀ (e : WifiEnv) (s), Reachable s → Reachable (WifiManager.timer_tick e s)
  | enable : ∀ (b : Bool) (s), Reachable s → Reachable (WifiManager.set_enable b s)
  | run : ∀ (s), Reachable s → Reachable (WifiManager.start s)
  | halt : ∀ (s), Reachable s → Reachable (WifiManager.stop s)

/-- An environment where the WLAN reports no association. -/
def eDown : WifiEnv := ⟨0, false, false, false⟩

/-- An environment where the WLAN reports an association with an IP. -/
def eUp : WifiEnv := ⟨0, true, true, false⟩

/-- Construction followed by `start` and the caller enabling connection. -/
def cexS2 : WifiManager :=
  WifiManager.set_enable true (WifiManager.start (mkWifiManager 5 2 20 3))

/-- One tick: `Disconnected → Connecting`. -/
def cexS3 : WifiManager := WifiManager.timer_tick eDown cexS2

/-- Second tick with the WLAN up: `Connecting → Connected`,
`is_connected = true`. -/
def cexS4 : WifiManager := WifiManager.timer_tick eUp cexS3

/-- The caller withdraws `enable_connection` while `Connected`. -/
def cexS5 : WifiManager := WifiManager.set_enable false cexS4

/-- Third tick: the `Connected → Disconnected` withdrawal transition. -/
def cexS6 : WifiManager := WifiManager.timer_tick eUp cexS5

/-- A reachable-shaped `Connecting` state used by the C8 witness. -/
def sConnRaise : WifiManager :=
  { mkWifiManager 5 2 20 3 with state := WifiState.connecting }

/-- The environment for the C8 witness: retry timing gate open, driver
raises on `connect`. -/
def eRaise : WifiEnv := ⟨3000, false, false, true⟩

/-- An `Error` state with the error budget exhausted, for the C5 witness. -/
def sErrBudget : WifiManager :=
  { mkWifiManager 5 2 20 3 with state := WifiState.error
                                error_count := 3
                                enable_connection := true }

/-! ### Helper lemmas about the volume model -/

/-- The final clamp makes every returned volume non-negative, whatever the
geometry. -/
theorem to_liters_nonneg (t : HexagonalPrismTank) (d : ℚ) : 0 ≤ to_liters t d := by
  unfold to_liters
  dsimp only
  split
  · exact le_refl 0
  · linarith [not_lt.mp (by assumption : ¬ volAtLevel t (tank_height t - d) < 0)]

theorem clamp_le_clamp {x y : ℚ} (h : x ≤ y) :
    (if x < 0 then (0:ℚ) else x) ≤ (if y < 0 then 0 else y) := by
  split_ifs with hx hy hy
  · exact le_refl 0
  · linarith
  · linarith
  · exact h

/-- The linearly interpolated trapezoid slice used in branches 1 and 3 of
`to_liters` is non-decreasing in the slice fill height on `[0, h]`, for any
positive widths at the two ends. -/
theorem trapSlice_mono (L h w₀ w₁ : ℚ) (hL : 0 < L) (hh : 0 < h)
    (hw0 : 0 < w₀) (hw1 : 0 < w₁) (a b : ℚ)
    (ha : 0 ≤ a) (hab : a ≤ b) (hb : b ≤ h) :
    (1/2 * (w₀ + (w₀ + (w₁ - w₀) / h * a)) * a * L) / 1000 ≤
      (1/2 * (w₀ + (w₀ + (w₁ - w₀) / h * b)) * b * L) / 1000 := by
  have hh' : h ≠ 0 := ne_of_gt hh
  have key : 0 ≤ (b - a) * (2 * w₀ * h + (w₁ - w₀) * (a + b)) := by
    have hba : 0 ≤ b - a := by linarith
    have hcore : 0 ≤ 2 * w₀ * h + (w₁ - w₀) * (a + b) := by
      rcases le_or_lt w₀ w₁ with hc | hc
      · nlinarith
      · nlinarith
    exact mul_nonneg hba hcore
  have expand :
      (1/2 * (w₀ + (w₀ + (w₁ - w₀) / h * b)) * b * L) / 1000 -
        (1/2 * (w₀ + (w₀ + (w₁ - w₀) / h * a)) * a * L) / 1000 =
        L / (2000 * h) * ((b - a) * (2 * w₀ * h + (w₁ - w₀) * (a + b))) := by
    field_simp
    ring
  have hfac : 0 ≤ L / (2000 * h) := by positivity
  nlinarith [mul_nonneg hfac key]

/-- The slice value at fill height `h` is the full trapezoid capacity. -/
theorem trapSlice_full (L h w₀ w₁ : ℚ) (hh : h ≠ 0) :
    (1/2 * (w₀ + (w₀ + (w₁ - w₀) / h * h)) * h * L) / 1000 =
      ((w₀ + w₁) / 2 * h * L) / 1000 := by
  field_simp

theorem volAtLevel_at_level1 (t : HexagonalPrismTank) (hh : 0 < t.h_trapeze) :
    volAtLevel t (level_1 t) = trapeze_capacity t := by
  unfold volAtLevel
  rw [if_pos (le_refl (level_1 t))]
  unfold level_1 trapeze_capacity calc_trapeze_volume
  have hh' : t.h_trapeze ≠ 0 := ne_of_gt hh
  field_simp

theorem volAtLevel_at_level2 (t : HexagonalPrismTank) (hr : 0 < t.h_rectangle) :
    volAtLevel t (level_2 t) = trapeze_capacity t + rectangle_capacity t := by
  unfold volAtLevel
  rw [if_neg (by unfold level_1 level_2; linarith), if_pos (le_refl (level_2 t))]
  unfold level_1 level_2 rectangle_capacity calc_rectangle_volume
  ring_nf

theorem volAtLevel_at_height (t : HexagonalPrismTank)
    (hr : 0 < t.h_rectangle) (hh : 0 < t.h_trapeze) :
    volAtLevel t (tank_height t) =
      trapeze_capacity t + rectangle_capacity t +
        calc_trapeze_volume t t.max_width t.min_width t.h_trapeze := by
  unfold volAtLevel
  rw [if_neg (by simp only [tank_height, level_2, level_1]; linarith),
    if_neg (by simp only [tank_height, level_2]; linarith),
    if_pos (le_refl (tank_height t))]
  have hh' : t.h_trapeze ≠ 0 := ne_of_gt hh
  have harg : tank_height t - level_2 t = t.h_trapeze := by
    unfold tank_height
    ring
  rw [harg]
  unfold calc_trapeze_volume
  field_simp
  ring

theorem volAtLevel_br1 (t : HexagonalPrismTank) {x : ℚ} (h : x ≤ level_1 t) :
    volAtLevel t x =
      (1/2 * (t.min_width +
          (t.min_width + (t.max_width - t.min_width) / t.h_trapeze * x)) *
        x * t.tank_length) / 1000 := by
  unfold volAtLevel
  rw [if_pos h]

theorem volAtLevel_br2 (t : HexagonalPrismTank) {x : ℚ}
    (h1 : ¬ x ≤ level_1 t) (h2 : x ≤ level_2 t) :
    volAtLevel t x =
      trapeze_capacity t + calc_rectangle_volume t t.max_width (x - level_1 t) := by
  unfold volAtLevel
  rw [if_neg h1, if_pos h2]

theorem volAtLevel_br3 (t : HexagonalPrismTank) {x : ℚ}
    (h1 : ¬ x ≤ level_1 t) (h2 : ¬ x ≤ level_2 t) (h3 : x ≤ tank_height t) :
    volAtLevel t x =
      (1/2 * (t.max_width +
          (t.max_width + (t.min_width - t.max_width) / t.h_trapeze *
            (x - level_2 t))) *
        (x - level_2 t) * t.tank_length) / 1000
        + trapeze_capacity t + rectangle_capacity t := by
  unfold volAtLevel
  rw [if_neg h1, if_neg h2, if_pos h3]

theorem trap_le_volAtLevel (t : HexagonalPrismTank)
    (hL : 0 < t.tank_length) (hre : 0 < t.h_rectangle) (hh : 0 < t.h_trapeze)
    (hm : 0 < t.min_width) (hM : 0 < t.max_width)
    {x : ℚ} (h1 : level_1 t < x) (h3 : x ≤ tank_height t) :
    trapeze_capacity t ≤ volAtLevel t x := by
  have hrect : 0 ≤ rectangle_capacity t := by
    unfold rectangle_capacity calc_rectangle_volume
    positivity
  rcases le_or_lt x (level_2 t) with h2 | h2
  · rw [volAtLevel_br2 t (not_le.mpr h1) h2]
    unfold calc_rectangle_volume
    nlinarith [mul_nonneg (mul_nonneg hM.le (by linarith : (0:ℚ) ≤ x - level_1 t)) hL.le]
  · rw [volAtLevel_br3 t (not_le.mpr h1) (not_le.mpr h2) h3]
    have z0 : (1/2 * (t.max_width +
        (t.max_width + (t.min_width - t.max_width) / t.h_trapeze * 0)) *
        0 * t.tank_length) / 1000 = 0 := by ring
    have hs := trapSlice_mono t.tank_length t.h_trapeze t.max_width t.min_width
      hL hh hM hm 0 (x - level_2 t) (le_refl 0) (by linarith)
      (by simp only [tank_height] at h3; linarith)
    rw [z0] at hs
    linarith

theorem trapRect_le_volAtLevel (t : HexagonalPrismTank)
    (hL : 0 < t.tank_length) (hre : 0 < t.h_rectangle) (hh : 0 < t.h_trapeze)
    (hm : 0 < t.min_width) (hM : 0 < t.max_width)
    {x : ℚ} (h2 : level_2 t < x) (h3 : x ≤ tank_height t) :
    trapeze_capacity t + rectangle_capacity t ≤ volAtLevel t x := by
  have h1 : level_1 t < x := by
    simp only [level_1, level_2] at *
    linarith
  rw [volAtLevel_br3 t (not_le.mpr h1) (not_le.mpr h2) h3]
  have z0 : (1/2 * (t.max_width +
      (t.max_width + (t.min_width - t.max_width) / t.h_trapeze * 0)) *
      0 * t.tank_length) / 1000 = 0 := by ring
  have hs := trapSlice_mono t.tank_length t.h_trapeze t.max_width t.min_width
    hL hh hM hm 0 (x - level_2 t) (le_refl 0) (by linarith)
    (by simp only [tank_height] at h3; linarith)
  rw [z0] at hs
  linarith

/-- The pre-clamp piecewise volume is non-decreasing in the fill level on
`[0, tank_height]`, for strictly positive dimensions. -/
theorem volAtLevel_mono (t : HexagonalPrismTank)
    (hL : 0 < t.tank_length) (hre : 0 < t.h_rectangle) (hh : 0 < t.h_trapeze)
    (hm : 0 < t.min_width) (hM : 0 < t.max_width)
    {a b : ℚ} (ha : 0 ≤ a) (hab : a ≤ b) (hb : b ≤ tank_height t) :
    volAtLevel t a ≤ volAtLevel t b := by
  have hl1h : level_1 t = t.h_trapeze := rfl
  rcases le_or_lt a (level_1 t) with ha1 | ha1
  · rcases le_or_lt b (level_1 t) with hb1 | hb1
    · rw [volAtLevel_br1 t ha1, volAtLevel_br1 t hb1]
      exact trapSlice_mono t.tank_length t.h_trapeze t.min_width t.max_width
        hL hh hm hM a b ha hab (hl1h ▸ hb1)
    · have step1 : volAtLevel t a ≤ trapeze_capacity t := by
        have hmono : volAtLevel t a ≤ volAtLevel t (level_1 t) := by
          rw [volAtLevel_br1 t ha1, volAtLevel_br1 t (le_refl (level_1 t))]
          exact trapSlice_mono t.tank_length t.h_trapeze t.min_width t.max_width
            hL hh hm hM a (level_1 t) ha ha1 (le_of_eq hl1h)
        rw [volAtLevel_at_level1 t hh] at hmono
        exact hmono
      have step2 : trapeze_capacity t ≤ volAtLevel t b :=
        trap_le_volAtLevel t hL hre hh hm hM hb1 hb
      linarith
  · rcases le_or_lt a (level_2 t) with ha2 | ha2
    · rcases le_or_lt b (level_2 t) with hb2 | hb2
      · rw [volAtLevel_br2 t (not_le.mpr ha1) ha2, volAtLevel_br2 t (by linarith) hb2]
        unfold calc_rectangle_volume
        nlinarith [mul_nonneg (mul_nonneg hM.le (by linarith : (0:ℚ) ≤ b - a)) hL.le]
      · have step1 : volAtLevel t a ≤ trapeze_capacity t + rectangle_capacity t := by
          rw [volAtLevel_br2 t (not_le.mpr ha1) ha2]
          unfold rectangle_capacity calc_rectangle_volume
          have hx : a - level_1 t ≤ t.h_rectangle := by
            simp only [level_1, level_2] at *
            linarith
          nlinarith [mul_nonneg (mul_nonneg hM.le
            (by linarith : (0:ℚ) ≤ t.h_rectangle - (a - level_1 t))) hL.le]
        have step2 : trapeze_capacity t + rectangle_capacity t ≤ volAtLevel t b :=
          trapRect_le_volAtLevel t hL hre hh hm hM hb2 hb
        linarith
    · have hb2 : level_2 t < b := lt_of_lt_of_le ha2 hab
      have ha1' : level_1 t < a := by
        simp only [level_1, level_2] at *
        linarith
      rw [volAtLevel_br3 t (not_le.mpr ha1') (not_le.mpr ha2) (le_trans hab hb),
        volAtLevel_br3 t (by simp only [level_1, level_2] at *; push_neg; linarith)
          (not_le.mpr hb2) hb]
      have hs := trapSlice_mono t.tank_length t.h_trapeze t.max_width t.min_width
        hL hh hM hm (a - level_2 t) (b - level_2 t) (by linarith) (by linarith)
        (by simp only [tank_height] at hb; linarith)
      linarith

theorem to_liters_eq_vol (t : HexagonalPrismTank) (d : ℚ)
    (h : 0 ≤ volAtLevel t (tank_height t - d)) :
    to_liters t d = volAtLevel t (tank_height t - d) := by
  simp only [to_liters]
  rw [if_neg (not_lt.mpr h)]

/-! ### Claim theorems about the volume model -/

/-- C6: for a geometry with strictly positive dimensions, `to_liters` is
non-decreasing in the fill level `tank_height - distance` on
`[0, tank_height]`: the larger fill level yields a volume greater than or
equal to the smaller one's. -/
theorem to_liters_monotone (t : HexagonalPrismTank)
    (hL : 0 < t.tank_length) (hre : 0 < t.h_rectangle) (hh : 0 < t.h_trapeze)
    (hm : 0 < t.min_width) (hM : 0 < t.max_width)
    (d₁ d₂ : ℚ) (h0 : 0 ≤ tank_height t - d₁)
    (h12 : tank_height t - d₁ ≤ tank_height t - d₂)
    (hT : tank_height t - d₂ ≤ tank_height t) :
    to_liters t d₁ ≤ to_liters t d₂ := by
  simp only [to_liters]
  exact clamp_le_clamp (volAtLevel_mono t hL hre hh hm hM h0 h12 hT)

/-- Witness for C6 on the concrete geometry `T0` with fill levels 5 and 15. -/
theorem to_liters_monotone_witness :
    (0:ℚ) ≤ tank_height T0 - 25 ∧ tank_height T0 - 25 ≤ tank_height T0 - 15 ∧
      tank_height T0 - 15 ≤ tank_height T0 ∧ to_liters T0 25 ≤ to_liters T0 15 :=
  ⟨by norm_num [tank_height, level_2, level_1, T0, mkTank],
   by norm_num [tank_height, level_2, level_1, T0, mkTank],
   by norm_num [tank_height, level_2, level_1, T0, mkTank],
   to_liters_monotone T0 (by norm_num [T0, mkTank]) (by norm_num [T0, mkTank])
     (by norm_num [T0, mkTank]) (by norm_num [T0, mkTank]) (by norm_num [T0, mkTank])
     25 15
     (by norm_num [tank_height, level_2, level_1, T0, mkTank])
     (by norm_num [tank_height, level_2, level_1, T0, mkTank])
     (by norm_num [tank_height, level_2, level_1, T0, mkTank])⟩

/-- C7: the three anchor values of `to_liters`: at fill level `0` the result
is `0`; at fill level `level_1` it equals the precomputed lower trapezoid
capacity; at fill level `tank_height` it equals the sum of the lower
trapezoid, rectangle and upper trapezoid capacities. -/
theorem to_liters_anchor_values (t : HexagonalPrismTank)
    (hL : 0 < t.tank_length) (hre : 0 < t.h_rectangle) (hh : 0 < t.h_trapeze)
    (hm : 0 < t.min_width) (hM : 0 < t.max_width) :
    to_liters t (tank_height t) = 0 ∧
    to_liters t (tank_height t - level_1 t) = trapeze_capacity t ∧
    to_liters t 0 = trapeze_capacity t + rectangle_capacity t +
      calc_trapeze_volume t t.max_width t.min_width t.h_trapeze := by
  have htrap : 0 < trapeze_capacity t := by
    unfold trapeze_capacity calc_trapeze_volume
    positivity
  have hrect : 0 < rectangle_capacity t := by
    unfold rectangle_capacity calc_rectangle_volume
    positivity
  have hupper : 0 < calc_trapeze_volume t t.max_width t.min_width t.h_trapeze := by
    unfold calc_trapeze_volume
    positivity
  refine ⟨?_, ?_, ?_⟩
  · have e : tank_height t - tank_height t = 0 := by ring
    have v0 : volAtLevel t (tank_height t - tank_height t) = 0 := by
      rw [e, volAtLevel_br1 t (by simp only [level_1]; linarith)]
      ring
    rw [to_liters_eq_vol t (tank_height t) (le_of_eq v0.symm), v0]
  · have e : tank_height t - (tank_height t - level_1 t) = level_1 t := by ring
    have v1 : volAtLevel t (tank_height t - (tank_height t - level_1 t)) =
        trapeze_capacity t := by
      rw [e]
      exact volAtLevel_at_level1 t hh
    rw [to_liters_eq_vol t (tank_height t - level_1 t) (by rw [v1]; linarith), v1]
  · have e : tank_height t - 0 = tank_height t := by ring
    have v2 : volAtLevel t (tank_height t - 0) =
        trapeze_capacity t + rectangle_capacity t +
          calc_trapeze_volume t t.max_width t.min_width t.h_trapeze := by
      rw [e]
      exact volAtLevel_at_height t hre hh
    rw [to_liters_eq_vol t 0 (by rw [v2]; linarith), v2]

/-- Witness for C7 on the concrete geometry `T0`. -/
theorem to_liters_anchor_values_witness :
    to_liters T0 (tank_height T0) = 0 ∧
    to_liters T0 (tank_height T0 - level_1 T0) = trapeze_capacity T0 ∧
    to_liters T0 0 = trapeze_capacity T0 + rectangle_capacity T0 +
      calc_trapeze_volume T0 T0.max_width T0.min_width T0.h_trapeze :=
  to_liters_anchor_values T0 (by norm_num [T0, mkTank]) (by norm_num [T0, mkTank])
    (by norm_num [T0, mkTank]) (by norm_num [T0, mkTank]) (by norm_num [T0, mkTank])

/-- C9: `to_liters` is a total function of the distance (the embedding is a
plain function: no exception path exists for any real distance once the
geometry is fixed), the returned volume is never negative, and whenever the
raw branch accumulator is negative the final clamp returns exactly `0`. -/
theorem to_liters_total_and_clamped : ∀ (t : HexagonalPrismTank) (d : ℚ),
    0 ≤ to_liters t d ∧ (volAtLevel t (tank_height t - d) < 0 → to_liters t d = 0) := by
  intro t d
  refine ⟨to_liters_nonneg t d, fun hneg => ?_⟩
  simp only [to_liters]
  rw [if_pos hneg]

/-- Witness for C9: on `T0` at distance 35 the raw branch value is negative
and the returned volume is exactly `0`. -/
theorem to_liters_total_and_clamped_witness :
    volAtLevel T0 (tank_height T0 - 35) < 0 ∧ to_liters T0 35 = 0 :=
  ⟨by norm_num [volAtLevel, level_1, level_2, tank_height, trapeze_capacity,
      rectangle_capacity, calc_trapeze_volume, calc_rectangle_volume, T0, mkTank],
   (to_liters_total_and_clamped T0 35).2
     (by norm_num [volAtLevel, level_1, level_2, tank_height, trapeze_capacity,
        rectangle_capacity, calc_trapeze_volume, calc_rectangle_volume, T0, mkTank])⟩

/-- C1 counterexample: on the geometry `T0` the distance `60` gives the
out-of-range fill level `-30 < 0`, yet `to_liters` returns `150`, not `0`:
the first branch also catches negative fill levels, and for a fill level
this far below `0` its raw value is the product of two negative factors,
hence positive, so the final clamp does not fire. -/
theorem out_of_range_counterexample :
    tank_height T0 - 60 < 0 ∧ to_liters T0 60 = 150 ∧ to_liters T0 60 ≠ 0 := by
  refine ⟨?_, ?_, ?_⟩ <;>
    norm_num [to_liters, volAtLevel, level_1, level_2, tank_height, trapeze_capacity,
      rectangle_capacity, calc_trapeze_volume, calc_rectangle_volume, T0, mkTank]

/-- C1 amended: a fill level above `tank_height` matches no branch and yields
exactly `0`; a fill level below `0` is caught by the *first* branch, and the
final clamp returns `0` exactly when the raw branch value is non-positive,
i.e. when `0 ≤ 2*min_width*h_trapeze + (max_width - min_width)*fill_level`
— for fill levels below `-2*min_width*h_trapeze/(max_width - min_width)`
(with `max_width > min_width`) the result is positive, not `0`. -/
theorem out_of_range_clamp (t : HexagonalPrismTank)
    (hL : 0 < t.tank_length) (hre : 0 < t.h_rectangle) (hh : 0 < t.h_trapeze)
    (d : ℚ) :
    (tank_height t < tank_height t - d → to_liters t d = 0) ∧
    (tank_height t - d < 0 →
      (to_liters t d = 0 ↔
        0 ≤ 2 * t.min_width * t.h_trapeze +
          (t.max_width - t.min_width) * (tank_height t - d))) := by
  constructor
  · intro hgt
    have hd : d < 0 := by linarith
    have hv : volAtLevel t (tank_height t - d) = 0 := by
      unfold volAtLevel
      rw [if_neg (by simp only [level_1, tank_height, level_2] at *; linarith),
        if_neg (by simp only [level_2, tank_height] at *; linarith),
        if_neg (by linarith)]
    simp only [to_liters]
    rw [hv]
    norm_num
  · intro hneg
    have h1 : tank_height t - d ≤ level_1 t := by
      simp only [level_1]
      linarith
    have hv : volAtLevel t (tank_height t - d) =
        (tank_height t - d) * t.tank_length *
          (2 * t.min_width * t.h_trapeze +
            (t.max_width - t.min_width) * (tank_height t - d)) /
          (2000 * t.h_trapeze) := by
      rw [volAtLevel_br1 t h1]
      have hh' : t.h_trapeze ≠ 0 := ne_of_gt hh
      field_simp
      ring
    constructor
    · intro h0
      by_contra hK
      push_neg at hK
      have hvpos : 0 < volAtLevel t (tank_height t - d) := by
        rw [hv]
        apply div_pos
        · exact mul_pos_of_neg_of_neg (mul_neg_of_neg_of_pos hneg hL) hK
        · positivity
      have heq : to_liters t d = volAtLevel t (tank_height t - d) :=
        to_liters_eq_vol t d hvpos.le
      rw [h0] at heq
      linarith
    · intro hK
      have hvle : volAtLevel t (tank_height t - d) ≤ 0 := by
        rw [hv]
        apply div_nonpos_of_nonpos_of_nonneg
        · nlinarith [mul_nonneg hK (neg_nonneg.mpr (mul_neg_of_neg_of_pos hneg hL).le)]
        · positivity
      simp only [to_liters]
      split_ifs with hsplit
      · rfl
      · linarith [not_lt.mp hsplit]

/-- Witness for C1 amended: on `T0` at distance 35 the fill level is `-5 < 0`,
the clamp criterion holds, and the returned volume is `0`. -/
theorem out_of_range_clamp_witness :
    tank_height T0 - 35 < 0 ∧ to_liters T0 35 = 0 :=
  ⟨by norm_num [tank_height, level_2, level_1, T0, mkTank],
   ((out_of_range_clamp T0 (by norm_num [T0, mkTank]) (by norm_num [T0, mkTank])
       (by norm_num [T0, mkTank]) 35).2
      (by norm_num [tank_height, level_2, level_1, T0, mkTank])).mpr
     (by norm_num [tank_height, level_2, level_1, T0, mkTank])⟩

/-- C4 counterexample: constructing a tank with the non-positive dimension
`min_width = -10` is not rejected (the source `__init__` contains no
validation at all) and the resulting instance happily computes volumes:
at distance 15 it returns `150` liters. -/
theorem init_no_validation_counterexample :
    (mkTank 1000 10 10 (-10) 20).min_width ≤ 0 ∧
    to_liters (mkTank 1000 10 10 (-10) 20) 15 = 150 := by
  constructor <;>
    norm_num [to_liters, volAtLevel, level_1, level_2, tank_height, trapeze_capacity,
      rectangle_capacity, calc_trapeze_volume, calc_rectangle_volume, mkTank]

/-- C4 amended: construction performs no validation: with any non-positive
dimension (or inverted ordering) it still produces an instance carrying
exactly the five supplied fields — nothing is rejected at construction
time. Any failure surfaces only later, at `to_liters` call time: when
`h_trapeze ≠ 0` the instance computes a clamped non-negative volume for
every distance, and when `h_trapeze = 0` a call whose fill level selects
the first branch raises (`none` in the fallible model) rather than the
construction having failed. -/
theorem init_accepts_invalid_dimensions (L hr ht mw Mw d : ℚ)
    (hbad : L ≤ 0 ∨ hr ≤ 0 ∨ ht ≤ 0 ∨ mw ≤ 0 ∨ Mw ≤ 0) :
    (mkTank L hr ht mw Mw).tank_length = L ∧
    (mkTank L hr ht mw Mw).h_rectangle = hr ∧
    (mkTank L hr ht mw Mw).h_trapeze = ht ∧
    (mkTank L hr ht mw Mw).min_width = mw ∧
    (mkTank L hr ht mw Mw).max_width = Mw ∧
    (ht ≠ 0 →
      to_litersE (mkTank L hr ht mw Mw) d =
        some (to_liters (mkTank L hr ht mw Mw) d) ∧
      0 ≤ to_liters (mkTank L hr ht mw Mw) d) ∧
    (ht = 0 →
      tank_height (mkTank L hr ht mw Mw) - d ≤ level_1 (mkTank L hr ht mw Mw) →
      to_litersE (mkTank L hr ht mw Mw) d = none) := by
  refine ⟨rfl, rfl, rfl, rfl, rfl,
    fun hne => ⟨?_, to_liters_nonneg _ _⟩, fun hz hbr => ?_⟩
  · simp only [to_litersE]
    split_ifs <;> first | rfl | exact absurd (by assumption) hne
  · simp only [to_litersE]
    rw [if_pos hbr]
    exact if_pos hz

/-- Witness for C4 amended: the invalid geometry with `min_width = -10`
(and `h_trapeze = 10 ≠ 0`) computes its volume at distance 15, while the
degenerate geometry with `h_trapeze = 0` fails only at call time. -/
theorem init_accepts_invalid_dimensions_witness :
    ((1000:ℚ) ≤ 0 ∨ (10:ℚ) ≤ 0 ∨ (10:ℚ) ≤ 0 ∨ (-10:ℚ) ≤ 0 ∨ (20:ℚ) ≤ 0) ∧
    (to_litersE (mkTank 1000 10 10 (-10) 20) 15 =
       some (to_liters (mkTank 1000 10 10 (-10) 20) 15) ∧
     0 ≤ to_liters (mkTank 1000 10 10 (-10) 20) 15) ∧
    to_litersE (mkTank 1000 10 0 10 20) 15 = none :=
  ⟨by norm_num,
   (init_accepts_invalid_dimensions 1000 10 10 (-10) 20 15
       (by norm_num)).2.2.2.2.2.1 (by norm_num),
   (init_accepts_invalid_dimensions 1000 10 0 10 20 15
       (by norm_num)).2.2.2.2.2.2 rfl
     (by norm_num [tank_height, level_2, level_1, mkTank])⟩

/-! ### Helper lemmas about the WiFi state machine -/

theorem fsm_disc_disabled (t : WifiManager) (e : WifiEnv)
    (h1 : t.state = WifiState.disconnected) (h2 : t.enable_connection = false) :
    WifiManager.fsm_logic e t = { t with tick_count := t.tick_count + 1 } := by
  simp [WifiManager.fsm_logic, h1, h2]

theorem applyTicks_disc_disabled (es : List WifiEnv) : ∀ (t : WifiManager),
    t.state = WifiState.disconnected → t.enable_connection = false →
    (applyTicks es t).state = WifiState.disconnected ∧
    (applyTicks es t).enable_connection = false ∧
    (applyTicks es t).connection_failed = t.connection_failed ∧
    (applyTicks es t).attempt_count = t.attempt_count := by
  induction es with
  | nil =>
    intro t h1 h2
    exact ⟨h1, h2, rfl, rfl⟩
  | cons e es ih =>
    intro t h1 h2
    have step := fsm_disc_disabled t e h1 h2
    simp only [applyTicks, List.foldl_cons] at *
    rw [step]
    have next := ih { t with tick_count := t.tick_count + 1 } (by simpa using h1)
      (by simpa using h2)
    simpa using next


theorem fsm_step_disc_enabled (e : WifiEnv) (s : WifiManager)
    (hs : s.state = WifiState.disconnected) (he : s.enable_connection = true) :
    WifiManager.fsm_logic e s =
      { s with tick_count := s.tick_count + 1, attempt_count := 0,
               connection_failed := false, state := WifiState.connecting,
               last_action_ms := 0 } := by
  unfold WifiManager.fsm_logic
  simp [hs, he]

theorem fsm_step_conn_success (e : WifiEnv) (s : WifiManager)
    (hs : s.state = WifiState.connecting) (hw : e.wlan_isconnected = true)
    (hip : e.has_ip = true) :
    WifiManager.fsm_logic e s =
      { s with tick_count := s.tick_count + 1, is_connected := true,
               error_count := 0, state := WifiState.connected } := by
  unfold WifiManager.fsm_logic
  simp [hs, hw, hip]

theorem fsm_step_conn_noip (e : WifiEnv) (s : WifiManager)
    (hs : s.state = WifiState.connecting) (hw : e.wlan_isconnected = true)
    (hip : e.has_ip = false) :
    WifiManager.fsm_logic e s = { s with tick_count := s.tick_count + 1 } := by
  unfold WifiManager.fsm_logic
  simp [hs, hw, hip]

theorem fsm_step_conn_wait (e : WifiEnv) (s : WifiManager)
    (hs : s.state = WifiState.connecting) (hw : e.wlan_isconnected = false)
    (ht : ¬ s.retry_delay * 1000 < e.now - s.last_action_ms) :
    WifiManager.fsm_logic e s = { s with tick_count := s.tick_count + 1 } := by
  unfold WifiManager.fsm_logic
  simp [hs, hw, ht]

theorem fsm_step_conn_attempt (e : WifiEnv) (s : WifiManager)
    (hs : s.state = WifiState.connecting) (hw : e.wlan_isconnected = false)
    (ht : s.retry_delay * 1000 < e.now - s.last_action_ms)
    (ha : s.attempt_count < s.max_retries) (hrs : e.connect_raises = false) :
    WifiManager.fsm_logic e s =
      { s with tick_count := s.tick_count + 1,
               attempt_count := s.attempt_count + 1, last_action_ms := e.now } := by
  unfold WifiManager.fsm_logic
  simp [hs, hw, ht, ha, hrs]

theorem fsm_step_conn_raise (e : WifiEnv) (s : WifiManager)
    (hs : s.state = WifiState.connecting) (hw : e.wlan_isconnected = false)
    (ht : s.retry_delay * 1000 < e.now - s.last_action_ms)
    (ha : s.attempt_count < s.max_retries) (hrs : e.connect_raises = true) :
    WifiManager.fsm_logic e s = { s with tick_count := s.tick_count + 1 } := by
  unfold WifiManager.fsm_logic
  simp [hs, hw, ht, ha, hrs]

theorem fsm_step_conn_exhaust_disabled (e : WifiEnv) (s : WifiManager)
    (hs : s.state = WifiState.connecting) (hw : e.wlan_isconnected = false)
    (ht : s.retry_delay * 1000 < e.now - s.last_action_ms)
    (ha : ¬ s.attempt_count < s.max_retries) (he : s.enable_connection = false) :
    WifiManager.fsm_logic e s =
      { s with tick_count := s.tick_count + 1, error_count := 0,
               state := WifiState.disconnected, last_action_ms := e.now } := by
  unfold WifiManager.fsm_logic
  simp [hs, hw, ht, ha, he]

theorem fsm_step_conn_exhaust_enabled (e : WifiEnv) (s : WifiManager)
    (hs : s.state = WifiState.connecting) (hw : e.wlan_isconnected = false)
    (ht : s.retry_delay * 1000 < e.now - s.last_action_ms)
    (ha : ¬ s.attempt_count < s.max_retries) (he : s.enable_connection = true) :
    WifiManager.fsm_logic e s =
      { s with tick_count := s.tick_count + 1,
               error_count := s.error_count + 1, state := WifiState.error,
               last_action_ms := e.now } := by
  unfold WifiManager.fsm_logic
  simp [hs, hw, ht, ha, he]

theorem fsm_step_connected_linkloss (e : WifiEnv) (s : WifiManager)
    (hs : s.state = WifiState.connected) (hw : e.wlan_isconnected = false) :
    WifiManager.fsm_logic e s =
      { s with tick_count := s.tick_count + 1, is_connected := false,
               state := WifiState.disconnected } := by
  unfold WifiManager.fsm_logic
  simp [hs, hw]

theorem fsm_step_connected_disable (e : WifiEnv) (s : WifiManager)
    (hs : s.state = WifiState.connected) (hw : e.wlan_isconnected = true)
    (he : s.enable_connection = false) :
    WifiManager.fsm_logic e s =
      { s with tick_count := s.tick_count + 1, error_count := 0,
               state := WifiState.disconnected } := by
  unfold WifiManager.fsm_logic
  simp [hs, hw, he]

theorem fsm_step_connected_stay (e : WifiEnv) (s : WifiManager)
    (hs : s.state = WifiState.connected) (hw : e.wlan_isconnected = true)
    (he : s.enable_connection = true) :
    WifiManager.fsm_logic e s = { s with tick_count := s.tick_count + 1 } := by
  unfold WifiManager.fsm_logic
  simp [hs, hw, he]

theorem fsm_step_error_budget (e : WifiEnv) (s : WifiManager)
    (hs : s.state = WifiState.error)
    (hc : s.max_error_count ≤ s.error_count) :
    WifiManager.fsm_logic e s =
      { s with tick_count := s.tick_count + 1, error_count := 0,
               enable_connection := false, connection_failed := true,
               state := WifiState.disconnected } := by
  unfold WifiManager.fsm_logic
  simp [hs, hc]

theorem fsm_step_error_timeout (e : WifiEnv) (s : WifiManager)
    (hs : s.state = WifiState.error) (hc : ¬ s.max_error_count ≤ s.error_count)
    (ht : 10000 < e.now - s.last_action_ms) :
    WifiManager.fsm_logic e s =
      { s with tick_count := s.tick_count + 1,
               state := WifiState.disconnected } := by
  unfold WifiManager.fsm_logic
  simp [hs, hc, ht]

theorem fsm_step_error_disabled (e : WifiEnv) (s : WifiManager)
    (hs : s.state = WifiState.error) (hc : ¬ s.max_error_count ≤ s.error_count)
    (ht : ¬ 10000 < e.now - s.last_action_ms) (he : s.enable_connection = false) :
    WifiManager.fsm_logic e s =
      { s with tick_count := s.tick_count + 1, error_count := 0,
               state := WifiState.disconnected } := by
  unfold WifiManager.fsm_logic
  simp [hs, hc, ht, he]

theorem fsm_step_error_stay (e : WifiEnv) (s : WifiManager)
    (hs : s.state = WifiState.error) (hc : ¬ s.max_error_count ≤ s.error_count)
    (ht : ¬ 10000 < e.now - s.last_action_ms) (he : s.enable_connection = true) :
    WifiManager.fsm_logic e s = { s with tick_count := s.tick_count + 1 } := by
  unfold WifiManager.fsm_logic
  simp [hs, hc, ht, he]

theorem fsm_preserves_connected_flag (e : WifiEnv) (s : WifiManager)
    (ih : s.state = WifiState.connected → s.is_connected = true)
    (h : (WifiManager.fsm_logic e s).state = WifiState.connected) :
    (WifiManager.fsm_logic e s).is_connected = true := by
  cases hst : s.state with
  | disconnected =>
    cases he : s.enable_connection with
    | true =>
      rw [fsm_step_disc_enabled e s hst he] at h
      simp at h
    | false =>
      rw [fsm_disc_disabled s e hst he] at h
      simp [hst] at h
  | connecting =>
    cases hw : e.wlan_isconnected with
    | true =>
      cases hip : e.has_ip with
      | true =>
        rw [fsm_step_conn_success e s hst hw hip]
      | false =>
        rw [fsm_step_conn_noip e s hst hw hip] at h
        simp [hst] at h
    | false =>
      by_cases ht : s.retry_delay * 1000 < e.now - s.last_action_ms
      · by_cases ha : s.attempt_count < s.max_retries
        · cases hrs : e.connect_raises with
          | true =>
            rw [fsm_step_conn_raise e s hst hw ht ha hrs] at h
            simp [hst] at h
          | false =>
            rw [fsm_step_conn_attempt e s hst hw ht ha hrs] at h
            simp [hst] at h
        · cases he : s.enable_connection with
          | true =>
            rw [fsm_step_conn_exhaust_enabled e s hst hw ht ha he] at h
            simp at h
          | false =>
            rw [fsm_step_conn_exhaust_disabled e s hst hw ht ha he] at h
            simp at h
      · rw [fsm_step_conn_wait e s hst hw ht] at h
        simp [hst] at h
  | connected =>
    cases hw : e.wlan_isconnected with
    | true =>
      cases he : s.enable_connection with
      | true =>
        rw [fsm_step_connected_stay e s hst hw he] at h ⊢
        simpa using ih hst
      | false =>
        rw [fsm_step_connected_disable e s hst hw he] at h
        simp at h
    | false =>
      rw [fsm_step_connected_linkloss e s hst hw] at h
      simp at h
  | error =>
    by_cases hc : s.max_error_count ≤ s.error_count
    · rw [fsm_step_error_budget e s hst hc] at h
      simp at h
    · by_cases ht : 10000 < e.now - s.last_action_ms
      · rw [fsm_step_error_timeout e s hst hc ht] at h
        simp at h
      · cases he : s.enable_connection with
        | true =>
          rw [fsm_step_error_stay e s hst hc ht he] at h
          simp [hst] at h
        | false =>
          rw [fsm_step_error_disabled e s hst hc ht he] at h
          simp at h

/-! ### Claim theorems about the WiFi state machine -/

/-- C2 counterexample: from construction, after `start`, enabling the
connection, a tick taking `Disconnected → Connecting`, a tick with the WLAN
up taking `Connecting → Connected` (so `is_connected = true`), the caller
withdrawing `enable_connection`, and one more tick taking the
`Connected → Disconnected` withdrawal transition, the state is
`Disconnected` while `is_connected` is still `true`: the withdrawal branch
(source lines 177-180) does not clear `is_connected`, so the flag is not
derived from the state. -/
theorem connected_flag_counterexample :
    cexS6.state = WifiState.disconnected ∧ cexS6.is_connected = true := by
  constructor <;> decide

/-- C2 amended: `is_connected` is true whenever the state is `Connected`
(for every manager reachable from construction under ticks, caller writes of
`enable_connection`, `start` and `stop`); the converse direction fails: the
enable-withdrawal transition out of `Connected` leaves `is_connected` true
in `Disconnected`. -/
theorem connected_state_implies_flag :
    ∀ s : WifiManager, Reachable s → s.state = WifiState.connected →
      s.is_connected = true := by
  intro s hs
  induction hs with
  | init mr rd ct mec =>
    intro h
    simp [mkWifiManager] at h
  | tick e s hr ih =>
    intro h
    unfold WifiManager.timer_tick at h ⊢
    split_ifs at h ⊢ with hta
    · exact fsm_preserves_connected_flag e s ih h
    · exact ih h
  | enable b s hr ih =>
    intro h
    simp only [WifiManager.set_enable] at h ⊢
    exact ih h
  | run s hr ih =>
    intro h
    simp only [WifiManager.start] at h ⊢
    exact ih h
  | halt s hr ih =>
    intro h
    simp [WifiManager.stop] at h

/-- Witness for C2 amended: the reachable state `cexS4` is `Connected` and
the theorem yields `is_connected = true` there. -/
theorem connected_state_implies_flag_witness :
    cexS4.state = WifiState.connected ∧ cexS4.is_connected = true :=
  ⟨by decide,
   connected_state_implies_flag cexS4
     (Reachable.tick eUp cexS3
       (Reachable.tick eDown cexS2
         (Reachable.enable true (WifiManager.start (mkWifiManager 5 2 20 3))
           (Reachable.run (mkWifiManager 5 2 20 3)
             (Reachable.init 5 2 20 3)))))
     (by decide)⟩

/-- C3 counterexample: calling `stop()` in the reachable `Connected` state
`cexS4` (where `is_connected = true`) forces the state to `Disconnected`
but leaves `is_connected` true: `stop` (source lines 226-239) deinitialises
the timer, disconnects the WLAN and resets the state, but never clears the
`is_connected` flag. -/
theorem stop_counterexample :
    (WifiManager.stop cexS4).state = WifiState.disconnected ∧
    (WifiManager.stop cexS4).is_connected = true := by
  constructor <;> decide

/-- C3 amended: `stop()` from any state forces the state to `Disconnected`
and halts further tick-driven transitions (the timer is deinitialised, so
every later timer period leaves the manager unchanged), but it leaves
`is_connected` exactly as it was — it does not make it false. -/
theorem stop_forces_disconnected_halts (s : WifiManager) :
    (WifiManager.stop s).state = WifiState.disconnected ∧
    (WifiManager.stop s).timer_active = false ∧
    (∀ e : WifiEnv, WifiManager.timer_tick e (WifiManager.stop s) =
      WifiManager.stop s) ∧
    (WifiManager.stop s).is_connected = s.is_connected := by
  refine ⟨rfl, rfl, fun e => ?_, rfl⟩
  unfold WifiManager.timer_tick
  rw [if_neg (by simp [WifiManager.stop])]

/-- C5: in the `Error` state with `error_count >= max_error_count`, the tick
sets the sticky `connection_failed` flag, forces `enable_connection` to
false and drops back to `Disconnected`; from there no tick re-enters
`Connecting` (and the attempt counter never moves) for any further tick
sequence, until the caller sets `enable_connection` true again, in which
case the next tick clears `connection_failed` and enters `Connecting`. -/
theorem error_budget_sticky (s : WifiManager) (e : WifiEnv)
    (hs : s.state = WifiState.error)
    (hc : s.max_error_count ≤ s.error_count) :
    (WifiManager.fsm_logic e s).connection_failed = true ∧
    (WifiManager.fsm_logic e s).enable_connection = false ∧
    (WifiManager.fsm_logic e s).state = WifiState.disconnected ∧
    (∀ es : List WifiEnv,
      (applyTicks es (WifiManager.fsm_logic e s)).state = WifiState.disconnected ∧
      (applyTicks es (WifiManager.fsm_logic e s)).enable_connection = false ∧
      (applyTicks es (WifiManager.fsm_logic e s)).connection_failed = true ∧
      (applyTicks es (WifiManager.fsm_logic e s)).attempt_count =
        s.attempt_count) ∧
    (∀ (t : WifiManager) (e' : WifiEnv),
      t.state = WifiState.disconnected → t.enable_connection = true →
      (WifiManager.fsm_logic e' t).connection_failed = false ∧
      (WifiManager.fsm_logic e' t).state = WifiState.connecting) := by
  rw [fsm_step_error_budget e s hs hc]
  refine ⟨rfl, rfl, rfl, fun es => ?_, fun t e' ht he => ?_⟩
  · have frame := applyTicks_disc_disabled es
      { s with tick_count := s.tick_count + 1, error_count := 0,
               enable_connection := false, connection_failed := true,
               state := WifiState.disconnected } rfl rfl
    simpa using frame
  · rw [fsm_step_disc_enabled e' t ht he]
    exact ⟨rfl, rfl⟩

/-- Witness for C5 at the concrete exhausted-budget state `sErrBudget`. -/
theorem error_budget_sticky_witness :
    sErrBudget.state = WifiState.error ∧
    sErrBudget.max_error_count ≤ sErrBudget.error_count ∧
    (WifiManager.fsm_logic eDown sErrBudget).connection_failed = true ∧
    (WifiManager.fsm_logic eDown sErrBudget).enable_connection = false :=
  ⟨by decide, by decide,
   (error_budget_sticky sErrBudget eDown (by decide) (by decide)).1,
   (error_budget_sticky sErrBudget eDown (by decide) (by decide)).2.1⟩

/-- C8: the tick handler is a total function in the embedding (the source
wraps the whole body in `try/except`, and the only fallible operation it
performs, `wlan.connect`, is guarded by its own inner `try/except`); when
the driver raises during a `Connecting` attempt (timing gate open, retry
budget available), the tick changes nothing but the tick counter — in
particular the state is still `Connecting`, and the attempt and error
counters are untouched, so the next tick retries. -/
theorem tick_swallows_driver_raise (s : WifiManager) (e : WifiEnv)
    (hs : s.state = WifiState.connecting)
    (hw : e.wlan_isconnected = false)
    (hraise : e.connect_raises = true)
    (ha : s.attempt_count < s.max_retries)
    (ht : s.retry_delay * 1000 < e.now - s.last_action_ms) :
    WifiManager.fsm_logic e s = { s with tick_count := s.tick_count + 1 } :=
  fsm_step_conn_raise e s hs hw ht ha hraise

/-- Witness for C8 at the concrete `Connecting` state `sConnRaise` under the
raising environment `eRaise`. -/
theorem tick_swallows_driver_raise_witness :
    sConnRaise.state = WifiState.connecting ∧
    eRaise.connect_raises = true ∧
    WifiManager.fsm_logic eRaise sConnRaise =
      { sConnRaise with tick_count := sConnRaise.tick_count + 1 } :=
  ⟨by decide, by decide,
   tick_swallows_driver_raise sConnRaise eRaise (by decide) (by decide)
     (by decide) (by decide) (by decide)⟩

/-- C10: `check_internet` returns `False` at once when `is_connected` is
false — the result does not depend on the probe environment at all, so no
network probe is consulted (and the bare `except` in the source means no
exception escapes; probe failure is just the `false` branch); and for every
manager the call leaves every field except `has_connectivity` unchanged. -/
theorem check_internet_guard_and_frame (s : WifiManager) (p q : Bool)
    (h : s.is_connected = false) :
    WifiManager.check_internet p s = (s, false) ∧
    WifiManager.check_internet p s = WifiManager.check_internet q s ∧
    (∀ t : WifiManager,
      (WifiManager.check_internet p t).1.state = t.state ∧
      (WifiManager.check_internet p t).1.is_connected = t.is_connected ∧
      (WifiManager.check_internet p t).1.connection_failed = t.connection_failed ∧
      (WifiManager.check_internet p t).1.enable_connection = t.enable_connection ∧
      (WifiManager.check_internet p t).1.attempt_count = t.attempt_count ∧
      (WifiManager.check_internet p t).1.error_count = t.error_count ∧
      (WifiManager.check_internet p t).1.tick_count = t.tick_count ∧
      (WifiManager.check_internet p t).1.last_action_ms = t.last_action_ms ∧
      (WifiManager.check_internet p t).1.timer_active = t.timer_active) := by
  have hmain : WifiManager.check_internet p s = (s, false) := by
    simp [WifiManager.check_internet, h]
  have hmain' : WifiManager.check_internet q s = (s, false) := by
    simp [WifiManager.check_internet, h]
  refine ⟨hmain, by rw [hmain, hmain'], fun t => ?_⟩
  unfold WifiManager.check_internet
  split_ifs <;> simp

/-- Witness for C10 at the freshly constructed manager, which has
`is_connected = false`. -/
theorem check_internet_guard_and_frame_witness :
    (mkWifiManager 5 2 20 3).is_connected = false ∧
    WifiManager.check_internet true (mkWifiManager 5 2 20 3) =
      (mkWifiManager 5 2 20 3, false) :=
  ⟨by decide,
   (check_internet_guard_and_frame (mkWifiManager 5 2 20 3) true false
     (by decide)).1⟩
